import Mathlib

/-!
Verification of the Trust Layer real-time messaging / moderation subsystem.

The definitions below are a shallow embedding of the repository's JavaScript
source.  Each definition carries a comment pointing at the source function it
embeds; machine integers are modelled as `Nat` (JS `Date.now()` timestamps and
MySQL ids are non-negative and far below any overflow boundary in this code),
MySQL tables are modelled as Lean lists of rows, and fallible operations
return `Option` / `Except`.
-/

namespace TrustLayer

/-! ## Character and list utilities

JS string helpers used by the frontend sanitizer (`chat.js`).  JS strings are
modelled as Lean `String` / `List Char`; the whitespace class is the ASCII
part of the JS `\s` class, which is the only part the source's data ever
exercises.
-/

/-- The ASCII whitespace characters matched by the JS regex class `\s`
and removed by `String.prototype.trim`. -/
def isJsSpace (c : Char) : Bool :=
  c = ' ' || c = '\t' || c = '\n' || c = '\r' || c = '\x0b' || c = '\x0c'

/-- `startsWith needle hay` holds when `needle` is an initial segment of
`hay` (used to model `String.prototype.includes`). -/
def startsWith : List Char → List Char → Bool
  | [], _ => true
  | _ :: _, [] => false
  | a :: as, b :: bs => a == b && startsWith as bs

/-- `containsSub needle hay` models `hay.includes(needle)` for JS strings. -/
def containsSub (needle hay : List Char) : Bool :=
  hay.tails.any (startsWith needle)

/-- Models `String.prototype.toLowerCase` on the alphabet this code uses
(ASCII letters; the accented characters in the source's phrase list are
already lower case). -/
def jsToLower (s : String) : String :=
  String.mk (s.data.map Char.toLower)

/-- Models `String.prototype.trim`: drop JS whitespace from both ends. -/
def jsTrim (l : List Char) : List Char :=
  ((l.dropWhile isJsSpace).reverse.dropWhile isJsSpace).reverse

/-! ## Content Sanitizer — frontend `chat.js`

```js
function sanitizeMessage(text) {
    if (typeof text !== 'string') return null;
    const stripped = text.replace(/<[^>]*>/g, '');
    const trimmed  = stripped.trim().replace(/\s{3,}/g, '  ');
    if (trimmed.length === 0 || trimmed.length > 500) return null;
    return trimmed;
}
```
-/

/-- One pass of the regex replace `/<[^>]*>/g → ''`.  The first argument
buffers (in reverse) the characters consumed since an unmatched `<`: the
regex needs a closing `>`, so a trailing `<...` without `>` is emitted
verbatim, exactly as the JS global replace leaves it. -/
def stripTagsGo : List Char → List Char → List Char
  | [], [] => []
  | buf, [] => buf.reverse
  | [], c :: rest =>
    if c = '<' then stripTagsGo [c] rest else c :: stripTagsGo [] rest
  | buf, c :: rest =>
    if c = '>' then stripTagsGo [] rest else stripTagsGo (c :: buf) rest

/-- Models `text.replace(/<[^>]*>/g, '')`: each segment from a `<` up to the
next `>` (inclusive) is removed; a `<` never followed by `>` stays. -/
def stripTags (l : List Char) : List Char := stripTagsGo [] l

/-- One pass of the regex replace `/\s{3,}/g → '  '`.  The first argument
buffers (in reverse) the current run of whitespace; a maximal run of three or
more whitespace characters is replaced by two spaces, shorter runs are kept
verbatim. -/
def collapseWsGo : List Char → List Char → List Char
  | buf, [] => if 3 ≤ buf.length then [' ', ' '] else buf.reverse
  | buf, c :: rest =>
    if isJsSpace c then collapseWsGo (c :: buf) rest
    else (if 3 ≤ buf.length then [' ', ' '] else buf.reverse)
         ++ c :: collapseWsGo [] rest

/-- Models `s.replace(/\s{3,}/g, '  ')`. -/
def collapseWs (l : List Char) : List Char := collapseWsGo [] l

/-- `sanitizeMessage` from `chat.js`: strip tags, trim, collapse whitespace
runs of three or more to two spaces, and reject results that are empty or
longer than 500 characters. -/
def sanitizeMessage (text : String) : Option String :=
  let stripped := stripTags text.data
  let trimmed := collapseWs (jsTrim stripped)
  if trimmed.length = 0 ∨ 500 < trimmed.length then none
  else some (String.mk trimmed)

/-! ## Crisis Signal Detector — frontend `chat.js` -/

/-- The fixed distress-phrase list `CRISIS_WORDS` from `chat.js`. -/
def CRISIS_WORDS : List String :=
  ["suicide", "suicider", "mourir", "me tuer", "en finir",
   "plus envie de vivre", "plus la force", "tout arrêter",
   "automutilation", "me faire mal", "me blesser",
   "idées noires", "souffrance insupportable",
   "je vais craquer", "je n'en peux plus"]

/-- Models `CRISIS_WORDS.some(kw => text.toLowerCase().includes(kw.toLowerCase()))`. -/
def containsCrisis (text : String) : Bool :=
  CRISIS_WORDS.any (fun kw => containsSub (jsToLower kw).data (jsToLower text).data)

/-! ## Rate Limiter — frontend `chat.js`

```js
const rateLimiter = {
    timestamps: [], MAX: 10, WINDOW: 30_000,
    check() {
        const now = Date.now();
        this.timestamps = this.timestamps.filter(t => now - t < this.WINDOW);
        if (this.timestamps.length >= this.MAX) {
            const wait = Math.ceil((this.WINDOW - (now - this.timestamps[0])) / 1000);
            return { allowed: false, wait };
        }
        this.timestamps.push(now);
        return { allowed: true };
    }
};
```
Timestamps are milliseconds since the epoch, modelled as `Nat`; the JS
subtraction `now - t` on a recorded timestamp `t ≤ now` agrees with `Nat`
subtraction, and for `t > now` both the JS negative value and the truncated
`Nat` zero are `< WINDOW` whenever `WINDOW > 0`.
-/

/-- The sliding-window limiter state: recorded timestamps plus the `MAX` and
`WINDOW` fields of the source object (10 and 30000 in `chat.js`). -/
structure RL where
  timestamps : List Nat
  MAX : Nat
  WINDOW : Nat

/-- Result of `rateLimiter.check()`: `{allowed: true}` or
`{allowed: false, wait}` (the spec calls the `wait` field `retryAfter`). -/
inductive CheckResult where
  | allowed : CheckResult
  | blocked (wait : Nat) : CheckResult
deriving DecidableEq

/-- `rateLimiter.check()` at time `now`: prune timestamps outside the window,
refuse when the pruned list has reached `MAX` (reporting a wait computed from
the oldest surviving timestamp), otherwise record `now` and allow.
`Math.ceil(x / 1000)` on the non-negative integer `x` is `(x + 999) / 1000`.
(The `[]` branch of the pruned list is unreachable whenever `MAX ≥ 1`.) -/
def RL.check (rl : RL) (now : Nat) : RL × CheckResult :=
  let pruned := rl.timestamps.filter (fun t => now - t < rl.WINDOW)
  if rl.MAX ≤ pruned.length then
    match pruned with
    | [] => ({ rl with timestamps := pruned }, .blocked 0)
    | t0 :: _ =>
      ({ rl with timestamps := pruned },
       .blocked ((rl.WINDOW - (now - t0) + 999) / 1000))
  else
    ({ rl with timestamps := pruned ++ [now] }, .allowed)

/-- Run `check()` once per element of `times`, threading the limiter state
and collecting the results in order. -/
def RL.runList (rl : RL) : List Nat → RL × List CheckResult
  | [] => (rl, [])
  | t :: ts =>
    let step := rl.check t
    let rest := step.1.runList ts
    (rest.1, step.2 :: rest.2)

/-! ## JSON values

The HTTP handlers respond with `res.json(...)` object literals and the
broadcast layer emits loosely-typed event payloads; both are modelled as
explicit JSON trees so that theorems can speak about exactly which fields a
response carries. -/

/-- A JSON value.  Object fields keep the literal's field order. -/
inductive Json where
  | str : String → Json
  | num : Nat → Json
  | boolean : Bool → Json
  | null : Json
  | obj : List (String × Json) → Json

/-- Field lookup on a JSON object (`none` on non-objects or missing keys). -/
def Json.lookupField : Json → String → Option Json
  | .obj fields, key => (fields.find? (fun p => p.1 == key)).map (fun p => p.2)
  | _, _ => none

/-- The field names of a JSON object, in order. -/
def Json.fieldNames : Json → Option (List String)
  | .obj fields => some (fields.map (fun p => p.1))
  | _ => none

/-- The error envelope `{ error: msg }` used by every failing handler. -/
def errJson (msg : String) : Json := .obj [("error", .str msg)]

/-- An HTTP response: status code plus JSON body. -/
structure HttpResponse where
  status : Nat
  body : Json

/-- A Socket.io broadcast `io.emit(name, payload)` reaching every live
connection. -/
structure SocketEvent where
  name : String
  payload : Json

/-! ## Data model — `schema.sql` and the in-memory connection registry -/

/-- A row of the `users` table (the columns this subsystem reads). -/
structure User where
  id : Nat
  username : String
  avatar : String
  is_banned : Bool
  is_admin : Bool
deriving DecidableEq

/-- A row of the `messages` table.  `deleted_at = none` ⇔ visible
(`deleted_at IS NULL`); timestamps are `Nat`. -/
structure Message where
  id : Nat
  user_id : Nat
  salon_id : Nat
  content : String
  deleted_at : Option Nat
  created_at : Nat
deriving DecidableEq, Inhabited

/-- A report status: the `ENUM('pending','resolved','rejected')` column. -/
inductive ReportStatus where
  | pending | resolved | rejected
deriving DecidableEq

/-- A row of the `reports` table. -/
structure Report where
  id : Nat
  reporter_id : Nat
  message_id : Nat
  reason : Option String
  status : ReportStatus
deriving DecidableEq

/-- A row of the `reactions` table.  The surrogate `id` and `created_at`
columns are never read by any query of the source (`toggleReaction` selects
and deletes by the `(user_id, message_id)` pair and `getReactionCount` uses
`COUNT(*)`), so they are not modelled. -/
structure Reaction where
  user_id : Nat
  message_id : Nat
  emoji : String
deriving DecidableEq

/-- A row of the `revoked_tokens` table. -/
structure RevokedToken where
  token_hash : String
  user_id : Option Nat
  expires_at : Nat
deriving DecidableEq

/-- The durable store: one list per table, plus the `AUTO_INCREMENT`
counters of the tables this subsystem inserts into. -/
structure Db where
  users : List User
  messages : List Message
  reports : List Report
  reactions : List Reaction
  revoked_tokens : List RevokedToken
  messageSeq : Nat
  reportSeq : Nat

/-- An entry of the in-memory connection registry `connectedUsers`
(`socketHandler.js`): socket id → actor snapshot. -/
structure ConnInfo where
  userId : Nat
  username : String
  avatar : String
deriving DecidableEq

/-- Whole-server state: the durable store plus the in-memory
`connectedUsers` map of the broadcast server. -/
structure ServerState where
  db : Db
  connectedUsers : List (Nat × ConnInfo)

/-! ## Database layer — `src/db/database.js`

Each function embeds the SQL its namesake issues.  `SELECT ... LIMIT 1`
becomes `List.find?`, `INSERT` appends a row built from the bound
parameters, `UPDATE ... WHERE` maps a per-row update over the table, and a
violated `UNIQUE` key becomes an `Except.error` (MySQL's `ER_DUP_ENTRY`). -/

/-- The row shape returned by `createMessage`'s follow-up
`SELECT m.id, m.content, m.created_at, m.user_id, u.username, u.avatar`. -/
structure MessageRow where
  id : Nat
  content : String
  created_at : Nat
  user_id : Nat
  username : String
  avatar : String
deriving DecidableEq

/-- JSON shape of a joined message row, as serialised by `res.json` /
`io.emit`. -/
def MessageRow.toJson (m : MessageRow) : Json :=
  .obj [("id", .num m.id), ("content", .str m.content),
        ("created_at", .num m.created_at), ("user_id", .num m.user_id),
        ("username", .str m.username), ("avatar", .str m.avatar)]

/-- `SELECT user_id FROM messages WHERE id = ? AND deleted_at IS NULL LIMIT 1`
(the visibility probe shared by the report and delete routes). -/
def selectVisibleMessage (msgs : List Message) (messageId : Nat) : Option Message :=
  msgs.find? (fun m => m.id == messageId && m.deleted_at.isNone)

/-- `db.createMessage(userId, content, salonId = 1)`: insert the message and
re-select it joined with its author.  The `fk_msg_user` foreign key makes the
insert fail when the author row does not exist. -/
def createMessage (db : Db) (userId : Nat) (content : String) (now : Nat) :
    Except String (Db × MessageRow) :=
  match db.users.find? (fun u => u.id == userId) with
  | none => .error "ER_NO_REFERENCED_ROW"
  | some u =>
    let id := db.messageSeq
    let row : Message :=
      { id := id, user_id := userId, salon_id := 1, content := content,
        deleted_at := none, created_at := now }
    (.ok ({ db with messages := db.messages ++ [row], messageSeq := id + 1 },
          { id := id, content := content, created_at := now,
            user_id := userId, username := u.username, avatar := u.avatar }))

/-- `db.deleteMessage(messageId)`:
`UPDATE messages SET deleted_at = NOW() WHERE id = ? AND deleted_at IS NULL`. -/
def deleteMessage (msgs : List Message) (messageId : Nat) (now : Nat) : List Message :=
  msgs.map (fun m =>
    if m.id == messageId && m.deleted_at.isNone
    then { m with deleted_at := some now } else m)

/-- `db.createReport(reporterId, messageId, reason)`: plain `INSERT` into
`reports`; the `uq_report UNIQUE(reporter_id, message_id)` key raises
`ER_DUP_ENTRY` when a row for the pair already exists. -/
def createReport (db : Db) (reporterId messageId : Nat) (reason : Option String) :
    Except String Db :=
  if db.reports.any (fun r => r.reporter_id == reporterId && r.message_id == messageId)
  then .error "ER_DUP_ENTRY"
  else
    let row : Report :=
      { id := db.reportSeq, reporter_id := reporterId, message_id := messageId,
        reason := reason, status := .pending }
    .ok { db with reports := db.reports ++ [row], reportSeq := db.reportSeq + 1 }

/-- The row predicate of `toggleReaction`'s
`WHERE user_id = ? AND message_id = ?`. -/
def rmatches (userId messageId : Nat) (r : Reaction) : Bool :=
  r.user_id == userId && r.message_id == messageId

/-- The `emoji` default parameter of `db.toggleReaction` (the only value the
route ever stores). -/
def defaultEmoji : String := "💜"

/-- `db.toggleReaction(userId, messageId, emoji = '💜')`: select by the pair;
if a row exists delete it (`{added:false}`), else insert one
(`{added:true}`). -/
def toggleReaction (rs : List Reaction) (userId messageId : Nat)
    (emoji : String := defaultEmoji) : List Reaction × Bool :=
  if rs.any (rmatches userId messageId) then
    (rs.filter (fun r => !rmatches userId messageId r), false)
  else
    (rs ++ [{ user_id := userId, message_id := messageId, emoji := emoji }], true)

/-- `db.getReactionCount(messageId)`:
`SELECT COUNT(*) FROM reactions WHERE message_id = ?`. -/
def getReactionCount (rs : List Reaction) (messageId : Nat) : Nat :=
  (rs.filter (fun r => r.message_id == messageId)).length

/-! ## Request validation — `src/middleware/validators.js`

```js
const sendMessageRules = [
  body('content').trim().isLength({ min: 1, max: 2000 })
];
```
The `.trim()` sanitizer rewrites `req.body.content` in place, so the handler
persists the trimmed text; `validate` answers 422 when the length check
fails. -/

/-- The server-side content validation: `some trimmed` when the trimmed
content passes `isLength({min:1, max:2000})`, `none` when `validate`
rejects with 422. -/
def sendMessageRulesApply (content : String) : Option String :=
  let t := String.mk (jsTrim content.data)
  if 1 ≤ t.length ∧ t.length ≤ 2000 then some t else none

/-! ## HTTP route handlers

Each handler embeds the body of its Express route, entered after the
`authenticate` middleware resolved the bearer token to a live, unbanned
actor (so the caller's identity is a parameter).  The result bundles the
store after the request, the HTTP response, and the Socket.io broadcasts the
handler emitted. -/

/-- Outcome of one HTTP request against the durable store. -/
structure Handled where
  db : Db
  resp : HttpResponse
  events : List SocketEvent

/-- `POST /api/messages` (`routes_messages.js`), after `authenticate` and
`messageLimiter`: validate (`sendMessageRules` + `validate`), insert via
`db.createMessage`, broadcast `new_message`, answer `201 {message}`. -/
def postMessagesHandler (db : Db) (userId : Nat) (content : String) (now : Nat) : Handled :=
  match sendMessageRulesApply content with
  | none => ⟨db, ⟨422, errJson "Données invalides"⟩, []⟩
  | some t =>
    match createMessage db userId t now with
    | .error _ => ⟨db, ⟨500, errJson "Erreur interne du serveur"⟩, []⟩
    | .ok (db', row) =>
      ⟨db', ⟨201, Json.obj [("message", row.toJson)]⟩,
       [⟨"new_message", row.toJson⟩]⟩

/-- `POST /api/messages/:id/react`: toggle, recount, broadcast
`reaction_update`, answer `{added, count}`. -/
def postReactHandler (db : Db) (userId messageId : Nat) : Handled :=
  if messageId < 1 then ⟨db, ⟨400, errJson "ID message invalide"⟩, []⟩
  else
    let toggled := toggleReaction db.reactions userId messageId
    let count := getReactionCount toggled.1 messageId
    ⟨{ db with reactions := toggled.1 },
     ⟨200, Json.obj [("added", .boolean toggled.2), ("count", .num count)]⟩,
     [⟨"reaction_update",
       Json.obj [("messageId", .num messageId), ("count", .num count)]⟩]⟩

/-- The `ALLOWED_REASONS` whitelist of the report route. -/
def ALLOWED_REASONS : List String :=
  ["harcèlement", "contenu offensant", "crise", "spam"]

/-- The route's `if (reason && !ALLOWED_REASONS.includes(reason))` guard
(`none` models an absent/falsy reason, which skips the check). -/
def reasonOk (reason : Option String) : Bool :=
  match reason with
  | none => true
  | some r => ALLOWED_REASONS.contains r

/-- `POST /api/messages/:id/report`: reason whitelist, visible-message
probe, self-report guard, then `db.createReport` with `ER_DUP_ENTRY`
mapped to 409. -/
def postReportHandler (db : Db) (userId messageId : Nat) (reason : Option String) : Handled :=
  if messageId < 1 then ⟨db, ⟨400, errJson "ID message invalide"⟩, []⟩
  else if !reasonOk reason then ⟨db, ⟨400, errJson "Raison invalide"⟩, []⟩
  else
    match selectVisibleMessage db.messages messageId with
    | none => ⟨db, ⟨404, errJson "Message introuvable"⟩, []⟩
    | some m =>
      if m.user_id == userId then
        ⟨db, ⟨403, errJson "Tu ne peux pas signaler ton propre message"⟩, []⟩
      else
        match createReport db userId messageId reason with
        | .error e =>
          if e = "ER_DUP_ENTRY"
          then ⟨db, ⟨409, errJson "Tu as déjà signalé ce message"⟩, []⟩
          else ⟨db, ⟨500, errJson "Erreur interne du serveur"⟩, []⟩
        | .ok db' =>
          ⟨db', ⟨201, Json.obj [("success", .boolean true),
                               ("message", .str "Signalement enregistré")]⟩, []⟩

/-- `DELETE /api/messages/:id` (the user-facing route): only the author of a
visible message may soft-delete it; the route performs no admin check. -/
def deleteMessageHandler (db : Db) (userId messageId : Nat) (now : Nat) : Handled :=
  if messageId < 1 then ⟨db, ⟨400, errJson "ID message invalide"⟩, []⟩
  else
    match selectVisibleMessage db.messages messageId with
    | none => ⟨db, ⟨404, errJson "Message introuvable"⟩, []⟩
    | some m =>
      if m.user_id != userId then
        ⟨db, ⟨403, errJson "Tu ne peux supprimer que tes propres messages"⟩, []⟩
      else
        ⟨{ db with messages := deleteMessage db.messages messageId now },
         ⟨200, Json.obj [("success", .boolean true)]⟩,
         [⟨"message_deleted", Json.obj [("messageId", .num messageId)]⟩]⟩

/-! ## Admin routes — `src/routes/routes_admin.js`

All of them run behind `authenticate` + `requireAdmin`
(`admin_middleware.js`), so each handler takes the resolved caller and
answers 403 unless `caller.is_admin`. -/

/-- Parse the request body's `status` against
`['resolved', 'rejected'].includes(status)`. -/
def reportStatusOfString (s : String) : Option ReportStatus :=
  if s = "resolved" then some .resolved
  else if s = "rejected" then some .rejected
  else none

/-- `PATCH /api/admin/reports/:id`: validate the requested status, then run
`UPDATE reports SET status = ? WHERE id = ?` unconditionally.  `mysql2`
connects with the `FOUND_ROWS` client flag, so `affectedRows` counts the
rows *matched* by the `WHERE` clause (a same-value update still counts);
the handler answers 404 only when no row has the id. -/
def patchReportsHandler (db : Db) (caller : User) (reportId : Nat) (status : String) : Handled :=
  if !caller.is_admin then
    ⟨db, ⟨403, errJson "Accès réservé aux administrateurs"⟩, []⟩
  else
    match reportStatusOfString status with
    | none =>
      ⟨db, ⟨400, errJson "Statut invalide. Valeurs acceptées : resolved, rejected"⟩, []⟩
    | some st =>
      let affected := (db.reports.filter (fun r => r.id == reportId)).length
      if affected = 0 then ⟨db, ⟨404, errJson "Signalement introuvable"⟩, []⟩
      else
        ⟨{ db with reports :=
             db.reports.map (fun r => if r.id == reportId then { r with status := st } else r) },
         ⟨200, Json.obj [("success", .boolean true), ("reportId", .num reportId),
                         ("status", .str status)]⟩, []⟩

/-- `DELETE /api/admin/messages/:id`: soft-delete unconditionally (no
authorship or existence check) and broadcast `message_deleted`. -/
def adminDeleteMessageHandler (db : Db) (caller : User) (messageId : Nat) (now : Nat) : Handled :=
  if !caller.is_admin then
    ⟨db, ⟨403, errJson "Accès réservé aux administrateurs"⟩, []⟩
  else
    ⟨{ db with messages := deleteMessage db.messages messageId now },
     ⟨200, Json.obj [("success", .boolean true), ("messageId", .num messageId)]⟩,
     [⟨"message_deleted", Json.obj [("messageId", .num messageId)]⟩]⟩

/-- Outcome of one request against the whole server state (store plus
in-memory connection registry). -/
structure HandledS where
  st : ServerState
  resp : HttpResponse
  events : List SocketEvent

/-- `POST /api/admin/users/:id/ban`: refuse self-ban, set `is_banned = 1`,
emit a `user_banned` event to every connection, and answer
`{success, userId, banned}`.  The handler touches neither the
`connectedUsers` registry nor the `revoked_tokens` table. -/
def banUserHandler (st : ServerState) (caller : User) (targetId : Nat) : HandledS :=
  if !caller.is_admin then
    ⟨st, ⟨403, errJson "Accès réservé aux administrateurs"⟩, []⟩
  else if targetId == caller.id then
    ⟨st, ⟨400, errJson "Impossible de se bannir soi-même"⟩, []⟩
  else
    let users' :=
      st.db.users.map (fun u => if u.id == targetId then { u with is_banned := true } else u)
    ⟨{ st with db := { st.db with users := users' } },
     ⟨200, Json.obj [("success", .boolean true), ("userId", .num targetId),
                     ("banned", .boolean true)]⟩,
     [⟨"user_banned", Json.obj [("userId", .num targetId)]⟩]⟩

/-! ## Client send pipeline — `sendMessage()` in `chat.js`

Rate-limit check, sanitize, crisis detection (`showCrisisAlert()` — the
banner is shown but the message is still sent), then
`POST /api/messages {content: text}`.  The response is not rendered locally;
display waits for the `new_message` broadcast. -/

/-- The observable effects of one `sendMessage()` call in the browser. -/
structure ClientEffects where
  rateLimitWait : Option Nat
  inputError : Bool
  crisisAlertShown : Bool
  posted : Option String
deriving DecidableEq

/-- `sendMessage()` from `chat.js`: the rate limiter state after the call,
plus which of `showRateLimitWarning` / `showInputError` /
`showCrisisAlert` fired and what content (if any) was POSTed. -/
def clientSendMessage (rl : RL) (now : Nat) (inputValue : String) : RL × ClientEffects :=
  let step := rl.check now
  match step.2 with
  | .blocked wait => (step.1, ⟨some wait, false, false, none⟩)
  | .allowed =>
    match sanitizeMessage inputValue with
    | none => (step.1, ⟨none, true, false, none⟩)
    | some text => (step.1, ⟨none, false, containsCrisis text, some text⟩)

/-! ## Concrete fixtures

Small populated states used by the witnesses and counterexamples below. -/

/-- A regular actor. -/
def alice : User :=
  { id := 1, username := "alice", avatar := "🌟", is_banned := false, is_admin := false }

/-- A second regular actor; author of `msgBob`. -/
def bob : User :=
  { id := 2, username := "bob", avatar := "🦊", is_banned := false, is_admin := false }

/-- An administrator. -/
def moderator : User :=
  { id := 3, username := "irene", avatar := "🦉", is_banned := false, is_admin := true }

/-- A visible message authored by `bob`. -/
def msgBob : Message :=
  { id := 5, user_id := 2, salon_id := 1, content := "salut", deleted_at := none,
    created_at := 50 }

/-- An already-soft-deleted message authored by `alice`. -/
def msgGone : Message :=
  { id := 9, user_id := 1, salon_id := 1, content := "vieux", deleted_at := some 40,
    created_at := 30 }

/-- A populated durable store. -/
def db0 : Db :=
  { users := [alice, bob, moderator], messages := [msgBob, msgGone], reports := [],
    reactions := [], revoked_tokens := [], messageSeq := 10, reportSeq := 1 }

/-- Server state: `db0` plus one live connection belonging to `bob`. -/
def st0 : ServerState :=
  { db := db0, connectedUsers := [(7, { userId := 2, username := "bob", avatar := "🦊" })] }

/-- A report already in the terminal `resolved` state. -/
def reportResolved : Report :=
  { id := 1, reporter_id := 1, message_id := 5, reason := none, status := .resolved }

/-- `db0` with `reportResolved` on file. -/
def dbReports : Db := { db0 with reports := [reportResolved], reportSeq := 2 }

/-- A 501-character content string (over the client bound, under the server
bound). -/
def c501 : String := String.mk (List.replicate 501 'a')

/-! ## Helper predicates (proof-side only) -/

/-- The first character of `l`, if any, is not JS whitespace. -/
def headNotSpace (l : List Char) : Prop := ∀ c ∈ l.head?, isJsSpace c = false

/-- The last character of `l`, if any, is not JS whitespace. -/
def lastNotSpace (l : List Char) : Prop := headNotSpace l.reverse

/-- Number of stored report rows for a `(reporter, message)` pair — the
quantity bounded by the `uq_report UNIQUE(reporter_id, message_id)` key. -/
def reportPairCount (db : Db) (reporterId messageId : Nat) : Nat :=
  (db.reports.filter
    (fun r => r.reporter_id == reporterId && r.message_id == messageId)).length

/-! ## Helper lemmas -/

/-- A `map` whose function fixes every element of the list is the identity. -/
theorem list_map_id_of {α : Type _} {l : List α} {f : α → α} (h : ∀ x ∈ l, f x = x) :
    l.map f = l := by
  induction l with
  | nil => rfl
  | cons a t ih => simp_all

/-- The head of `l.dropWhile p`, when it exists, does not satisfy `p`. -/
theorem head_dropWhile_false {α : Type _} (p : α → Bool) (l : List α) :
    ∀ c ∈ (l.dropWhile p).head?, p c = false := by
  induction l with
  | nil => intro c hc; simp at hc
  | cons a t ih =>
    by_cases h : p a = true
    · simpa [List.dropWhile_cons, h] using ih
    · intro c hc
      simp [List.dropWhile_cons, h] at hc
      subst hc
      simpa using h

/-- When nonempty, `l.dropWhile p` ends with the same element as `l`. -/
theorem getLast?_dropWhile {α : Type _} (p : α → Bool) (l : List α)
    (h : l.dropWhile p ≠ []) : (l.dropWhile p).getLast? = l.getLast? := by
  obtain ⟨pre, hpre⟩ := List.dropWhile_suffix (l := l) p
  calc (l.dropWhile p).getLast? = (pre ++ l.dropWhile p).getLast? :=
        (List.getLast?_append_of_ne_nil pre h).symm
    _ = l.getLast? := by rw [hpre]

/-- `jsTrim` output has no whitespace at either end. -/
theorem jsTrim_noEdgeSpace (l : List Char) :
    headNotSpace (jsTrim l) ∧ lastNotSpace (jsTrim l) := by
  unfold jsTrim
  constructor
  · -- head of the final reverse = last of the inner dropWhile
    intro c hc
    rw [List.head?_reverse] at hc
    by_cases hB : (l.dropWhile isJsSpace).reverse.dropWhile isJsSpace = []
    · rw [hB] at hc
      simp at hc
    · rw [getLast?_dropWhile _ _ hB, List.getLast?_reverse] at hc
      exact head_dropWhile_false isJsSpace l c hc
  · -- last of the final reverse = head of the inner dropWhile
    unfold lastNotSpace headNotSpace
    rw [List.reverse_reverse]
    exact head_dropWhile_false isJsSpace (l.dropWhile isJsSpace).reverse

/-- A list with a non-whitespace last character keeps that last character
through `collapseWsGo`, whatever whitespace is pending in the buffer. -/
theorem getLast?_collapseWsGo (d : Char) (hd : isJsSpace d = false) :
    ∀ (m : List Char) (buf : List Char), m.getLast? = some d →
      (collapseWsGo buf m).getLast? = some d := by
  intro m
  induction m with
  | nil => intro buf h; simp at h
  | cons c rest ih =>
    intro buf h
    cases rest with
    | nil =>
      simp at h
      subst h
      have : isJsSpace c = false := hd
      unfold collapseWsGo
      rw [this]
      simp only [Bool.false_eq_true, if_false]
      unfold collapseWsGo
      simp [List.getLast?_concat]
    | cons r rest' =>
      rw [List.getLast?_cons_cons] at h
      by_cases hc : isJsSpace c = true
      · unfold collapseWsGo
        rw [hc]
        simp only [if_true]
        exact ih (c :: buf) h
      · have hc' : isJsSpace c = false := by simpa using hc
        unfold collapseWsGo
        rw [hc']
        simp only [Bool.false_eq_true, if_false]
        have hY := ih [] h
        have hYne : collapseWsGo [] (r :: rest') ≠ [] := by
          intro hnil
          rw [hnil] at hY
          simp at hY
        rw [List.getLast?_append_of_ne_nil _ (by simp)]
        cases hYeq : collapseWsGo [] (r :: rest') with
        | nil => exact absurd hYeq hYne
        | cons y ys =>
          rw [List.getLast?_cons_cons]
          rw [hYeq] at hY
          exact hY

/-- `collapseWs` preserves the absence of whitespace at both ends. -/
theorem collapseWs_noEdgeSpace (m : List Char)
    (h1 : headNotSpace m) (h2 : lastNotSpace m) :
    headNotSpace (collapseWs m) ∧ lastNotSpace (collapseWs m) := by
  cases m with
  | nil => exact ⟨by intro c hc; simp [collapseWs, collapseWsGo] at hc,
                 by intro c hc; simp [collapseWs, collapseWsGo] at hc⟩
  | cons c rest =>
    have hc : isJsSpace c = false := h1 c (by simp)
    have hhead : collapseWs (c :: rest) = c :: collapseWsGo [] rest := by
      simp [collapseWs, collapseWsGo, hc]
    by_cases hrest : (c :: rest).getLast? = some c ∧ rest = []
    · -- single-character list
      rw [hrest.2] at hhead ⊢
      refine ⟨?_, ?_⟩
      · intro x hx
        rw [hhead] at hx
        simp [collapseWsGo] at hx
        subst hx
        exact hc
      · intro x hx
        rw [hhead] at hx
        simp [collapseWsGo] at hx
        subst hx
        exact hc
    · refine ⟨?_, ?_⟩
      · intro x hx
        rw [hhead] at hx
        simp at hx
        subst hx
        exact hc
      · -- use the last-character lemma
        obtain ⟨d, hdlast⟩ : ∃ d, (c :: rest).getLast? = some d := by
          cases hgl : (c :: rest).getLast? with
          | none => simp [List.getLast?_eq_none_iff] at hgl
          | some d => exact ⟨d, rfl⟩
        have hdns : isJsSpace d = false := by
          have := h2
          unfold lastNotSpace headNotSpace at this
          exact this d (by rw [List.head?_reverse]; exact hdlast)
        intro x hx
        unfold collapseWs at hx
        rw [List.head?_reverse,
            getLast?_collapseWsGo d hdns (c :: rest) [] hdlast] at hx
        simp at hx
        subst hx
        exact hdns

/-- A list without edge whitespace is a fixed point of `jsTrim`. -/
theorem jsTrim_of_noEdgeSpace (l : List Char)
    (h1 : headNotSpace l) (h2 : lastNotSpace l) : jsTrim l = l := by
  have hdw : ∀ (m : List Char), headNotSpace m → m.dropWhile isJsSpace = m := by
    intro m hm
    cases m with
    | nil => rfl
    | cons a t =>
      rw [List.dropWhile_cons, hm a (by simp)]
      simp
  unfold jsTrim
  rw [hdw l h1, hdw l.reverse h2, List.reverse_reverse]

/-- A successfully sanitized client message passes the server-side
`sendMessageRules` unchanged: the server's re-trim is a no-op on it and its
length is within both bounds. -/
theorem sanitize_fix (raw text : String) (hsan : sanitizeMessage raw = some text) :
    sendMessageRulesApply text = some text ∧ 1 ≤ text.length ∧ text.length ≤ 500 := by
  rw [show sanitizeMessage raw =
      (if (collapseWs (jsTrim (stripTags raw.data))).length = 0 ∨
          500 < (collapseWs (jsTrim (stripTags raw.data))).length
       then none
       else some (String.mk (collapseWs (jsTrim (stripTags raw.data))))) from rfl] at hsan
  split at hsan
  · exact absurd hsan (by simp)
  · rename_i hguard
    have htext : String.mk (collapseWs (jsTrim (stripTags raw.data))) = text :=
      Option.some.inj hsan
    have hlen : 1 ≤ (collapseWs (jsTrim (stripTags raw.data))).length ∧
        (collapseWs (jsTrim (stripTags raw.data))).length ≤ 500 := by
      push_neg at hguard
      omega
    have hedge := jsTrim_noEdgeSpace (stripTags raw.data)
    have hedge2 := collapseWs_noEdgeSpace _ hedge.1 hedge.2
    have hfix : jsTrim (collapseWs (jsTrim (stripTags raw.data)))
        = collapseWs (jsTrim (stripTags raw.data)) :=
      jsTrim_of_noEdgeSpace _ hedge2.1 hedge2.2
    have hdata : text.data = collapseWs (jsTrim (stripTags raw.data)) := by
      rw [← htext]
    have htl : text.length = (collapseWs (jsTrim (stripTags raw.data))).length := by
      rw [← htext]
      rfl
    refine ⟨?_, by omega, by omega⟩
    have hrw : sendMessageRulesApply text =
        (if 1 ≤ (String.mk (jsTrim text.data)).length ∧
            (String.mk (jsTrim text.data)).length ≤ 2000
         then some (String.mk (jsTrim text.data)) else none) := rfl
    rw [hrw, hdata, hfix, htext]
    have hcond : 1 ≤ text.length ∧ text.length ≤ 2000 := by omega
    rw [if_pos hcond]

/-- No request can take the stored count of reports for a pair above one:
every branch of the report route either leaves the table untouched or
appends one row after `createReport`'s uniqueness guard saw none for the
pair. -/
theorem postReport_pairCount_le_one (db : Db) (A' M' : Nat) (r' : Option String)
    (A M : Nat) (h : reportPairCount db A M ≤ 1) :
    reportPairCount (postReportHandler db A' M' r').db A M ≤ 1 := by
  by_cases h1 : M' < 1
  · simpa [postReportHandler, h1] using h
  by_cases h2 : reasonOk r' = true
  · cases hfind : selectVisibleMessage db.messages M' with
    | none => simpa [postReportHandler, h1, h2, hfind] using h
    | some msg =>
      by_cases h3 : (msg.user_id == A') = true
      · simpa [postReportHandler, h1, h2, hfind, h3] using h
      · have h3' : (msg.user_id == A') = false := by simpa using h3
        by_cases h4 :
          (db.reports.any (fun r => r.reporter_id == A' && r.message_id == M')) = true
        · have hcr : createReport db A' M' r' = .error "ER_DUP_ENTRY" := by
            unfold createReport
            simp [h4]
          simpa [postReportHandler, h1, h2, hfind, h3', hcr] using h
        · have h4' :
            (db.reports.any (fun r => r.reporter_id == A' && r.message_id == M')) = false := by
            simpa using h4
          have hcr : createReport db A' M' r' =
              .ok { db with
                     reports := db.reports ++
                       [{ id := db.reportSeq, reporter_id := A', message_id := M',
                          reason := r', status := .pending }],
                     reportSeq := db.reportSeq + 1 } := by
            unfold createReport
            simp [h4']
          have hout : (postReportHandler db A' M' r').db =
              { db with
                 reports := db.reports ++
                   [{ id := db.reportSeq, reporter_id := A', message_id := M',
                      reason := r', status := .pending }],
                 reportSeq := db.reportSeq + 1 } := by
            unfold postReportHandler
            simp [h1, h2, hfind, h3', hcr]
          rw [reportPairCount, hout]
          unfold reportPairCount at h
          simp only [List.filter_append, List.length_append]
          by_cases h5 : (A' == A && M' == M) = true
          · have hAA : A' = A ∧ M' = M := by simpa using h5
            have hz : db.reports.filter
                (fun r => r.reporter_id == A && r.message_id == M) = [] := by
              rw [List.filter_eq_nil_iff]
              intro r hr
              have hnr := List.any_eq_false.mp h4' r hr
              rw [← hAA.1, ← hAA.2]
              simpa using hnr
            simp [hz, List.filter, hAA.1, hAA.2]
          · have h5' : (A' == A && M' == M) = false := by simpa using h5
            simpa [List.filter, h5'] using h
  · have h2' : reasonOk r' = false := by simpa using h2
    simpa [postReportHandler, h1, h2'] using h

/-! ## Claim theorems -/

/-- **C10.** `deleteMessage` (`UPDATE messages SET deleted_at = NOW() WHERE
id = ? AND deleted_at IS NULL`) touches a row only when its `deleted_at` is
currently NULL: an already-soft-deleted row passes through unchanged (its
recorded deletion timestamp is never overwritten), a visible row with the
target id receives `deleted_at = some now`, and when every row with the
target id is already soft-deleted the whole update is a no-op. -/
theorem soft_delete_preserves_timestamp (msgs : List Message) (messageId now : Nat) :
    (∀ i : Fin msgs.length, (msgs.get i).deleted_at ≠ none →
        (deleteMessage msgs messageId now).getD i.1 default = msgs.get i) ∧
    (∀ i : Fin msgs.length, (msgs.get i).id = messageId → (msgs.get i).deleted_at = none →
        (deleteMessage msgs messageId now).getD i.1 default
          = { msgs.get i with deleted_at := some now }) ∧
    ((∀ m ∈ msgs, m.id = messageId → m.deleted_at ≠ none) →
        deleteMessage msgs messageId now = msgs) := by
  refine ⟨?_, ?_, ?_⟩
  · intro i hdel
    have hlen : i.1 < (deleteMessage msgs messageId now).length := by
      simp [deleteMessage, i.2]
    rw [List.getD_eq_getElem _ _ hlen]
    have hn : (msgs.get i).deleted_at.isNone = false := by
      cases h : (msgs.get i).deleted_at <;> simp_all
    simp [deleteMessage, List.getElem_map, List.get_eq_getElem, hn]
    intro _ h2
    exact absurd h2 hdel
  · intro i hId hdel
    have hlen : i.1 < (deleteMessage msgs messageId now).length := by
      simp [deleteMessage, i.2]
    rw [List.getD_eq_getElem _ _ hlen]
    simp [deleteMessage, List.getElem_map, List.get_eq_getElem, hId, hdel]
    intro h
    exact absurd hdel (h hId)
  · intro hall
    unfold deleteMessage
    apply list_map_id_of
    intro m hm
    by_cases hId : m.id = messageId
    · have hd := hall m hm hId
      have hn : m.deleted_at.isNone = false := by
        cases h : m.deleted_at <;> simp_all
      simp [hn]
    · simp [hId]

/-- Witness for C10: soft-deleting the already-deleted `msgGone` again is a
no-op. -/
theorem soft_delete_preserves_timestamp_witness :
    deleteMessage [msgGone] 9 100 = [msgGone] :=
  (soft_delete_preserves_timestamp [msgGone] 9 100).2.2 (by decide)

/-- **C6.** For every visible message, a report filed by its own author is
answered 403 (`SelfReport`) and stores nothing: the store is returned
unchanged and no broadcast is emitted. -/
theorem self_report_forbidden (db : Db) (messageId : Nat) (reason : Option String)
    (m : Message) (hid : 1 ≤ messageId) (hreason : reasonOk reason = true)
    (hfind : selectVisibleMessage db.messages messageId = some m) :
    postReportHandler db m.user_id messageId reason =
      ⟨db, ⟨403, errJson "Tu ne peux pas signaler ton propre message"⟩, []⟩ := by
  have h1 : ¬ messageId < 1 := by omega
  unfold postReportHandler
  simp [h1, hreason, hfind]

/-- Witness for C6: `bob` reporting his own message `msgBob` gets 403 and
`db0` is unchanged. -/
theorem self_report_forbidden_witness :
    postReportHandler db0 2 5 none =
      ⟨db0, ⟨403, errJson "Tu ne peux pas signaler ton propre message"⟩, []⟩ :=
  self_report_forbidden db0 5 none msgBob (by decide) rfl rfl

/-- Counterexample for C8: `reportResolved` is in the terminal state
`resolved`, yet `PATCH /api/admin/reports/1 {status:"rejected"}` succeeds
(200) and moves it to `rejected` — a further transition out of a terminal
state. -/
theorem terminal_report_transition_cex :
    reportResolved.status = .resolved ∧
    (patchReportsHandler dbReports moderator 1 "rejected").resp.status = 200 ∧
    (patchReportsHandler dbReports moderator 1 "rejected").db.reports =
      [{ reportResolved with status := .rejected }] := by
  refine ⟨rfl, rfl, by decide⟩

/-- **C8 (amended).** The moderator transition endpoint overwrites the
stored status with any requested value in `{resolved, rejected}` whenever a
report with the id exists, regardless of the current status — terminal
states included.  Repeating a transition with the status the report already
holds is not an error: it answers 200 and leaves the table unchanged. -/
theorem report_status_overwrite (db : Db) (caller : User) (reportId : Nat) (s : String)
    (st : ReportStatus) (hadmin : caller.is_admin = true)
    (hs : reportStatusOfString s = some st)
    (hex : (db.reports.filter (fun r => r.id == reportId)).length ≠ 0) :
    (patchReportsHandler db caller reportId s =
      ⟨{ db with reports :=
           db.reports.map (fun r => if r.id == reportId then { r with status := st } else r) },
       ⟨200, Json.obj [("success", .boolean true), ("reportId", .num reportId),
                       ("status", .str s)]⟩, []⟩) ∧
    ((∀ r ∈ db.reports, r.id = reportId → r.status = st) →
      (patchReportsHandler db caller reportId s).db = db) := by
  have hmain : patchReportsHandler db caller reportId s =
      ⟨{ db with reports :=
           db.reports.map (fun r => if r.id == reportId then { r with status := st } else r) },
       ⟨200, Json.obj [("success", .boolean true), ("reportId", .num reportId),
                       ("status", .str s)]⟩, []⟩ := by
    unfold patchReportsHandler
    simp [hadmin, hs, hex]
  refine ⟨hmain, ?_⟩
  intro hall
  have hmap : db.reports.map (fun r => if r.id == reportId then { r with status := st } else r)
      = db.reports := by
    apply list_map_id_of
    intro r hr
    by_cases hId : r.id = reportId
    · have hst := hall r hr hId
      cases r
      simp_all
    · simp [hId]
  rw [hmain]
  show { db with reports :=
      db.reports.map (fun r => if r.id == reportId then { r with status := st } else r) } = db
  rw [hmap]

/-- Witness for C8: re-transitioning the already-`resolved` report to
`resolved` leaves the store unchanged. -/
theorem report_status_overwrite_witness :
    (patchReportsHandler dbReports moderator 1 "resolved").db = dbReports :=
  (report_status_overwrite dbReports moderator 1 "resolved" .resolved
    (by decide) (by decide) (by decide)).2 (by decide)

/-- Counterexample for C9: `moderator` is an admin and not the author of the
visible message 5, yet `DELETE /api/messages/5` answers 403 and deletes
nothing — the user-facing delete route accepts only the author. -/
theorem admin_delete_forbidden_cex :
    moderator.is_admin = true ∧ msgBob.user_id ≠ moderator.id ∧
    deleteMessageHandler db0 moderator.id 5 100 =
      ⟨db0, ⟨403, errJson "Tu ne peux supprimer que tes propres messages"⟩, []⟩ := by
  exact ⟨rfl, by decide, rfl⟩

/-- **C9 (amended).** On `DELETE /api/messages/:id` an existing visible
message is soft-deleted (with a `message_deleted` broadcast) exactly when
the caller is its author; every other authenticated caller — admins
included — receives 403 and the store is unchanged.  Admins soft-delete
through the separate `DELETE /api/admin/messages/:id` route, which performs
the deletion for any admin caller. -/
theorem delete_message_author_only (db : Db) (caller : User) (messageId now : Nat)
    (m : Message) (hid : 1 ≤ messageId)
    (hfind : selectVisibleMessage db.messages messageId = some m) :
    (m.user_id = caller.id →
      deleteMessageHandler db caller.id messageId now =
        ⟨{ db with messages := deleteMessage db.messages messageId now },
         ⟨200, Json.obj [("success", .boolean true)]⟩,
         [⟨"message_deleted", Json.obj [("messageId", .num messageId)]⟩]⟩) ∧
    (m.user_id ≠ caller.id →
      deleteMessageHandler db caller.id messageId now =
        ⟨db, ⟨403, errJson "Tu ne peux supprimer que tes propres messages"⟩, []⟩) ∧
    (caller.is_admin = true →
      adminDeleteMessageHandler db caller messageId now =
        ⟨{ db with messages := deleteMessage db.messages messageId now },
         ⟨200, Json.obj [("success", .boolean true), ("messageId", .num messageId)]⟩,
         [⟨"message_deleted", Json.obj [("messageId", .num messageId)]⟩]⟩) := by
  have h1 : ¬ messageId < 1 := by omega
  refine ⟨?_, ?_, ?_⟩
  · intro hauthor
    unfold deleteMessageHandler
    simp [h1, hfind, hauthor]
  · intro hother
    unfold deleteMessageHandler
    simp [h1, hfind, hother]
  · intro hadmin
    unfold adminDeleteMessageHandler
    simp [hadmin]

/-- Witness for C9: author `bob` soft-deletes his own message 5. -/
theorem delete_message_author_only_witness :
    deleteMessageHandler db0 2 5 100 =
      ⟨{ db0 with messages := deleteMessage db0.messages 5 100 },
       ⟨200, Json.obj [("success", .boolean true)]⟩,
       [⟨"message_deleted", Json.obj [("messageId", .num 5)]⟩]⟩ :=
  (delete_message_author_only db0 bob 5 100 msgBob (by decide) rfl).1 rfl

/-- **C2.** Evaluating the ban route on a state where the target holds a
live connection: the banned flag is set and a `user_banned` event is
emitted, but the target's connection is still in the in-memory registry and
the `revoked_tokens` table is still empty — the handler neither
force-disconnects nor inserts a revocation, contradicting both the claim
and the route's own header comment (« Bannir un utilisateur + révoquer son
token JWT actif »). -/
theorem ban_sets_flag_but_keeps_connection_and_tokens :
    (banUserHandler st0 moderator 2).resp.status = 200 ∧
    (∀ u ∈ (banUserHandler st0 moderator 2).st.db.users, u.id = 2 → u.is_banned = true) ∧
    (banUserHandler st0 moderator 2).st.connectedUsers = st0.connectedUsers ∧
    (∃ c ∈ (banUserHandler st0 moderator 2).st.connectedUsers, c.2.userId = 2) ∧
    (banUserHandler st0 moderator 2).st.db.revoked_tokens = [] ∧
    (banUserHandler st0 moderator 2).events.map SocketEvent.name = ["user_banned"] := by
  exact ⟨rfl, by decide, by decide, by decide, by decide, rfl⟩

/-- **C4.** When a report of a visible message by a non-author is accepted
(201, one row appended), a second report of the same message by the same
reporter always answers 409 (`DuplicateReport`) and leaves the store
untouched; moreover no request whatsoever can take the stored count of rows
for a `(reporter, message)` pair above one. -/
theorem duplicate_report_conflict (db : Db) (reporterId messageId : Nat)
    (reason reason' : Option String) (m : Message)
    (hid : 1 ≤ messageId)
    (hr : reasonOk reason = true) (hr' : reasonOk reason' = true)
    (hfind : selectVisibleMessage db.messages messageId = some m)
    (hauthor : (m.user_id == reporterId) = false)
    (hnew : (db.reports.any
      (fun r => r.reporter_id == reporterId && r.message_id == messageId)) = false) :
    ((postReportHandler db reporterId messageId reason).resp.status = 201) ∧
    ((postReportHandler db reporterId messageId reason).db.reports
       = db.reports ++ [{ id := db.reportSeq, reporter_id := reporterId,
                          message_id := messageId, reason := reason, status := .pending }]) ∧
    (postReportHandler (postReportHandler db reporterId messageId reason).db
        reporterId messageId reason'
       = ⟨(postReportHandler db reporterId messageId reason).db,
          ⟨409, errJson "Tu as déjà signalé ce message"⟩, []⟩) ∧
    (∀ (db' : Db) (A' M' : Nat) (r' : Option String) (A M : Nat),
       reportPairCount db' A M ≤ 1 →
       reportPairCount (postReportHandler db' A' M' r').db A M ≤ 1) := by
  have h1 : ¬ messageId < 1 := by omega
  have hcr : createReport db reporterId messageId reason =
      .ok { db with
             reports := db.reports ++
               [{ id := db.reportSeq, reporter_id := reporterId, message_id := messageId,
                  reason := reason, status := .pending }],
             reportSeq := db.reportSeq + 1 } := by
    unfold createReport
    simp [hnew]
  have hfirst : postReportHandler db reporterId messageId reason =
      ⟨{ db with
          reports := db.reports ++
            [{ id := db.reportSeq, reporter_id := reporterId, message_id := messageId,
               reason := reason, status := .pending }],
          reportSeq := db.reportSeq + 1 },
       ⟨201, Json.obj [("success", .boolean true),
                       ("message", .str "Signalement enregistré")]⟩, []⟩ := by
    unfold postReportHandler
    simp [h1, hr, hfind, hauthor, hcr]
  refine ⟨by rw [hfirst], by rw [hfirst], ?_, postReport_pairCount_le_one⟩
  rw [hfirst]
  have hcr2 : createReport
      { db with
         reports := db.reports ++
           [{ id := db.reportSeq, reporter_id := reporterId, message_id := messageId,
              reason := reason, status := .pending }],
         reportSeq := db.reportSeq + 1 } reporterId messageId reason'
      = .error "ER_DUP_ENTRY" := by
    unfold createReport
    simp [List.any_append]
  unfold postReportHandler
  simp [h1, hr', hfind, hauthor, hcr2]

/-- Witness for C4: `alice` reports `bob`'s message 5 twice; the first call
is accepted, the second answers 409 without storing a second row. -/
theorem duplicate_report_conflict_witness :
    postReportHandler (postReportHandler db0 1 5 (some "spam")).db 1 5 (some "spam")
      = ⟨(postReportHandler db0 1 5 (some "spam")).db,
         ⟨409, errJson "Tu as déjà signalé ce message"⟩, []⟩ :=
  (duplicate_report_conflict db0 1 5 (some "spam") (some "spam") msgBob
    (by decide) (by decide) (by decide) rfl (by decide) (by decide)).2.2.1

/-- **C5.** `toggleReaction` deletes the row and reports `added = false`
exactly when a row for the `(actor, message)` pair exists, and inserts one
reporting `added = true` otherwise; under the `uq_reaction` uniqueness
invariant (at most one row per pair, always carrying the route's default
emoji) two successive toggles leave the reaction table a permutation of the
original — in particular every message's reaction count is restored. -/
theorem toggle_reaction_pair_identity (rs : List Reaction) (u m : Nat)
    (huniq : (rs.filter (rmatches u m)).length ≤ 1)
    (hrow : ∀ r ∈ rs, rmatches u m r = true → r = ⟨u, m, defaultEmoji⟩) :
    ((rs.any (rmatches u m)) = true →
       toggleReaction rs u m = (rs.filter (fun r => !rmatches u m r), false)) ∧
    ((rs.any (rmatches u m)) = false →
       toggleReaction rs u m = (rs ++ [⟨u, m, defaultEmoji⟩], true)) ∧
    ((toggleReaction (toggleReaction rs u m).1 u m).1.Perm rs) ∧
    (∀ mid, getReactionCount (toggleReaction (toggleReaction rs u m).1 u m).1 mid
        = getReactionCount rs mid) := by
  have hperm : (toggleReaction (toggleReaction rs u m).1 u m).1.Perm rs := by
    by_cases h : (rs.any (rmatches u m)) = true
    · -- the pair exists: first call deletes, second call re-inserts
      have hfil : rs.filter (rmatches u m) = [⟨u, m, defaultEmoji⟩] := by
        obtain ⟨r, hrmem, hrp⟩ := List.any_eq_true.mp h
        have hone : (rs.filter (rmatches u m)).length = 1 := by
          have : r ∈ rs.filter (rmatches u m) := List.mem_filter.mpr ⟨hrmem, hrp⟩
          have hpos : 0 < (rs.filter (rmatches u m)).length :=
            List.length_pos.mpr (List.ne_nil_of_mem this)
          omega
        obtain ⟨a, ha⟩ := List.length_eq_one.mp hone
        have hamem : a ∈ rs.filter (rmatches u m) := by
          rw [ha]
          exact List.mem_singleton_self a
        have := hrow a (List.mem_filter.mp hamem).1 (List.mem_filter.mp hamem).2
        rw [ha, this]
      have hnone : ((rs.filter (fun r => !rmatches u m r)).any (rmatches u m)) = false := by
        rw [List.any_eq_false]
        intro r hrmem
        have := (List.mem_filter.mp hrmem).2
        simp_all
      have h2 : (toggleReaction (toggleReaction rs u m).1 u m).1
          = rs.filter (fun r => !rmatches u m r) ++ [⟨u, m, defaultEmoji⟩] := by
        unfold toggleReaction
        simp [h, hnone]
      rw [h2]
      have p1 : (rs.filter (fun r => !rmatches u m r)
            ++ [(⟨u, m, defaultEmoji⟩ : Reaction)]).Perm
          ([(⟨u, m, defaultEmoji⟩ : Reaction)] ++ rs.filter (fun r => !rmatches u m r)) :=
        List.perm_append_comm
      have p2 : ([(⟨u, m, defaultEmoji⟩ : Reaction)]
            ++ rs.filter (fun r => !rmatches u m r)).Perm rs := by
        rw [← hfil]
        exact List.filter_append_perm _ rs
      exact p1.trans p2
    · -- no row yet: first call inserts, second call deletes exactly it
      have h' : (rs.any (rmatches u m)) = false := by simpa using h
      have hall : ∀ r ∈ rs, rmatches u m r = false := by
        intro r hrmem
        simpa using List.any_eq_false.mp h' r hrmem
      have hx : rmatches u m ⟨u, m, defaultEmoji⟩ = true := by
        simp [rmatches]
      have hany2 : ((rs ++ [(⟨u, m, defaultEmoji⟩ : Reaction)]).any (rmatches u m)) = true := by
        simp [List.any_append, hx]
      have h2 : (toggleReaction (toggleReaction rs u m).1 u m).1
          = (rs ++ [(⟨u, m, defaultEmoji⟩ : Reaction)]).filter (fun r => !rmatches u m r) := by
        unfold toggleReaction
        simp [h', hany2]
      rw [h2, List.filter_append]
      have hself : rs.filter (fun r => !rmatches u m r) = rs := by
        rw [List.filter_eq_self]
        intro r hrmem
        simp [hall r hrmem]
      have hsingle : ([(⟨u, m, defaultEmoji⟩ : Reaction)].filter
          (fun r => !rmatches u m r)) = [] := by
        simp [hx]
      rw [hself, hsingle, List.append_nil]
  refine ⟨?_, ?_, hperm, ?_⟩
  · intro h
    unfold toggleReaction
    simp [h]
  · intro h
    unfold toggleReaction
    simp [h]
  · intro mid
    unfold getReactionCount
    exact (hperm.filter _).length_eq

/-- Witness for C5: toggling twice on an empty reaction table restores the
empty table. -/
theorem toggle_reaction_pair_identity_witness :
    (toggleReaction (toggleReaction ([] : List Reaction) 1 5).1 1 5).1.Perm [] :=
  (toggle_reaction_pair_identity [] 1 5 (by decide) (by decide)).2.2.1

/-- Counterexample for C1: "en finir" is on the distress list and survives
sanitization unchanged, the message is persisted and broadcast, but the 201
response body is exactly `{message}` — it has no crisis field at all, let
alone one equal to `true`. -/
theorem crisis_flag_absent_cex :
    containsCrisis "en finir" = true ∧
    sanitizeMessage "en finir" = some "en finir" ∧
    (postMessagesHandler db0 1 "en finir" 100).resp.status = 201 ∧
    (postMessagesHandler db0 1 "en finir" 100).resp.body.fieldNames = some ["message"] ∧
    (postMessagesHandler db0 1 "en finir" 100).resp.body.lookupField "crisis" = none ∧
    (postMessagesHandler db0 1 "en finir" 100).db.messages
      = db0.messages ++ [{ id := 10, user_id := 1, salon_id := 1, content := "en finir",
                           deleted_at := none, created_at := 100 }] := by
  exact ⟨by decide, by decide, rfl, rfl, rfl, by decide⟩

/-- **C1 (amended).** When the sanitized text contains a distress phrase,
the client pipeline shows the crisis banner and still POSTs the sanitized
text unchanged; the server persists that exact text, broadcasts it as a
`new_message` event, and answers 201 — but the crisis signal is raised
client-side only: the response body is exactly `{message}` and carries no
crisis flag. -/
theorem crisis_message_delivered (rl : RL) (db : Db) (u : User) (raw text : String)
    (now tsend : Nat)
    (hsan : sanitizeMessage raw = some text)
    (hcrisis : containsCrisis text = true)
    (hallowed : (rl.check now).2 = .allowed)
    (huser : db.users.find? (fun x => x.id == u.id) = some u) :
    ((clientSendMessage rl now raw).2 = ⟨none, false, true, some text⟩) ∧
    ((postMessagesHandler db u.id text tsend).db.messages
        = db.messages ++ [{ id := db.messageSeq, user_id := u.id, salon_id := 1,
                            content := text, deleted_at := none, created_at := tsend }]) ∧
    ((postMessagesHandler db u.id text tsend).events
        = [⟨"new_message", MessageRow.toJson
             { id := db.messageSeq, content := text, created_at := tsend,
               user_id := u.id, username := u.username, avatar := u.avatar }⟩]) ∧
    ((postMessagesHandler db u.id text tsend).resp.status = 201) ∧
    ((postMessagesHandler db u.id text tsend).resp.body.fieldNames = some ["message"]) ∧
    ((postMessagesHandler db u.id text tsend).resp.body.lookupField "crisis" = none) := by
  have hrules : sendMessageRulesApply text = some text := (sanitize_fix raw text hsan).1
  have hcreate : createMessage db u.id text tsend =
      .ok ({ db with
              messages := db.messages ++
                [{ id := db.messageSeq, user_id := u.id, salon_id := 1, content := text,
                   deleted_at := none, created_at := tsend }],
              messageSeq := db.messageSeq + 1 },
           { id := db.messageSeq, content := text, created_at := tsend,
             user_id := u.id, username := u.username, avatar := u.avatar }) := by
    unfold createMessage
    rw [huser]
  have hout : postMessagesHandler db u.id text tsend =
      ⟨{ db with
          messages := db.messages ++
            [{ id := db.messageSeq, user_id := u.id, salon_id := 1, content := text,
               deleted_at := none, created_at := tsend }],
          messageSeq := db.messageSeq + 1 },
       ⟨201, Json.obj [("message", MessageRow.toJson
          { id := db.messageSeq, content := text, created_at := tsend,
            user_id := u.id, username := u.username, avatar := u.avatar })]⟩,
       [⟨"new_message", MessageRow.toJson
          { id := db.messageSeq, content := text, created_at := tsend,
            user_id := u.id, username := u.username, avatar := u.avatar }⟩]⟩ := by
    unfold postMessagesHandler
    simp only [hrules, hcreate]
  have hclient : (clientSendMessage rl now raw).2 = ⟨none, false, true, some text⟩ := by
    simp only [clientSendMessage, hallowed, hsan, hcrisis]
  exact ⟨hclient, by rw [hout], by rw [hout], by rw [hout],
         by rw [hout]; rfl, by rw [hout]; rfl⟩

/-- Witness for C1: the crisis text "en finir" flows through both the client
pipeline (banner shown, text posted) and the server handler (no crisis field
in the response). -/
theorem crisis_message_delivered_witness :
    ((clientSendMessage ⟨[], 10, 30000⟩ 1000 "en finir").2
        = ⟨none, false, true, some "en finir"⟩) ∧
    ((postMessagesHandler db0 1 "en finir" 100).resp.body.lookupField "crisis" = none) :=
  ⟨(crisis_message_delivered ⟨[], 10, 30000⟩ db0 alice "en finir" "en finir" 1000 100
      (by decide) (by decide) (by decide) rfl).1,
   (crisis_message_delivered ⟨[], 10, 30000⟩ db0 alice "en finir" "en finir" 1000 100
      (by decide) (by decide) (by decide) rfl).2.2.2.2.2⟩

set_option maxRecDepth 8000 in
/-- Counterexample for C3: a 501-character content exceeds the claimed
500-character bound, yet the server-side validator accepts it and the
handler persists and broadcasts it (the authoritative bound is 2000; only
the client-side `sanitizeMessage` enforces 500). -/
theorem oversize_content_persisted_cex :
    c501.length = 501 ∧
    sanitizeMessage c501 = none ∧
    sendMessageRulesApply c501 = some c501 ∧
    (postMessagesHandler db0 1 c501 100).resp.status = 201 ∧
    (postMessagesHandler db0 1 c501 100).db.messages
      = db0.messages ++ [{ id := 10, user_id := 1, salon_id := 1, content := c501,
                           deleted_at := none, created_at := 100 }] ∧
    (postMessagesHandler db0 1 c501 100).events.map SocketEvent.name = ["new_message"] := by
  exact ⟨by decide, by decide, by decide, rfl, by decide, rfl⟩

/-- **C3 (amended).** Rejection happens in two layers with different bounds:
the client pipeline never POSTs content whose sanitized form is empty or
longer than 500 characters, and the server-side validator answers 422
(storing and broadcasting nothing) exactly when the trimmed content is
empty or longer than 2000 characters. -/
theorem content_validation_layers (raw content : String)
    (hclient : sanitizeMessage raw = none)
    (hserver : sendMessageRulesApply content = none) :
    (∀ rl now, (clientSendMessage rl now raw).2.posted = none) ∧
    (∀ db uid now, postMessagesHandler db uid content now
        = ⟨db, ⟨422, errJson "Données invalides"⟩, []⟩) ∧
    (∀ s : String, sanitizeMessage s = none ↔
        ((collapseWs (jsTrim (stripTags s.data))).length = 0 ∨
         500 < (collapseWs (jsTrim (stripTags s.data))).length)) ∧
    (∀ s : String, sendMessageRulesApply s = none ↔
        ((jsTrim s.data).length = 0 ∨ 2000 < (jsTrim s.data).length)) := by
  refine ⟨?_, ?_, ?_, ?_⟩
  · intro rl now
    unfold clientSendMessage
    cases hc : (rl.check now).2 with
    | allowed => simp [hc, hclient]
    | blocked w => simp [hc]
  · intro db uid now
    unfold postMessagesHandler
    rw [hserver]
  · intro s
    rw [show sanitizeMessage s =
        (if (collapseWs (jsTrim (stripTags s.data))).length = 0 ∨
            500 < (collapseWs (jsTrim (stripTags s.data))).length
         then none
         else some (String.mk (collapseWs (jsTrim (stripTags s.data))))) from rfl]
    split
    · rename_i h
      simpa using h
    · rename_i h
      simpa using h
  · intro s
    rw [show sendMessageRulesApply s =
        (if 1 ≤ (String.mk (jsTrim s.data)).length ∧
            (String.mk (jsTrim s.data)).length ≤ 2000
         then some (String.mk (jsTrim s.data)) else none) from rfl]
    have hlen : (String.mk (jsTrim s.data)).length = (jsTrim s.data).length := rfl
    split
    · rename_i h
      rw [hlen] at h
      simp only [Option.some_ne_none, false_iff]
      omega
    · rename_i h
      rw [hlen] at h
      simp only [true_iff]
      omega

/-- Witness for C3: whitespace-only input is never POSTed by the client, and
an empty body is rejected 422 by the server with `db0` untouched. -/
theorem content_validation_layers_witness :
    ((clientSendMessage ⟨[], 10, 30000⟩ 0 "   ").2.posted = none) ∧
    (postMessagesHandler db0 1 "" 100 = ⟨db0, ⟨422, errJson "Données invalides"⟩, []⟩) :=
  ⟨(content_validation_layers "   " "" (by decide) (by decide)).1 ⟨[], 10, 30000⟩ 0,
   (content_validation_layers "   " "" (by decide) (by decide)).2.1 db0 1 100⟩

/-- A `check()` whose recorded timestamps are all inside the window and
fewer than `MAX` prunes nothing, records `now`, and allows. -/
theorem check_allowed_of (l : List Nat) (MAXv W now : Nat)
    (hkeep : ∀ t ∈ l, now - t < W) (hlen : l.length < MAXv) :
    RL.check ⟨l, MAXv, W⟩ now = (⟨l ++ [now], MAXv, W⟩, .allowed) := by
  simp only [RL.check]
  have hfil : l.filter (fun t => decide (now - t < W)) = l :=
    List.filter_eq_self.mpr (fun t ht => decide_eq_true (hkeep t ht))
  rw [hfil, if_neg (by omega)]

/-- Running `check()` on a nondecreasing sequence of call times that all fit
in one window never refuses while the recorded count stays below `MAX`: the
state accumulates every call time and every result is `allowed`. -/
theorem runList_window (W MAXv : Nat) (pre ts : List Nat)
    (hlen : pre.length + ts.length ≤ MAXv)
    (hpair : (pre ++ ts).Pairwise (· ≤ ·))
    (hwin : ∀ a ∈ pre ++ ts, ∀ b ∈ pre ++ ts, b - a < W) :
    RL.runList ⟨pre, MAXv, W⟩ ts
      = (⟨pre ++ ts, MAXv, W⟩, List.replicate ts.length .allowed) := by
  induction ts generalizing pre with
  | nil => simp [RL.runList]
  | cons t ts' ih =>
    have hstep : RL.check ⟨pre, MAXv, W⟩ t = (⟨pre ++ [t], MAXv, W⟩, .allowed) := by
      apply check_allowed_of
      · intro x hx
        exact hwin x (by simp [hx]) t (by simp)
      · have : ts'.length + 1 ≥ 1 := by omega
        simp only [List.length_cons] at hlen
        omega
    have hcat : (pre ++ [t]) ++ ts' = pre ++ (t :: ts') := by simp
    have ih' := ih (pre ++ [t])
      (by simp at hlen ⊢; omega)
      (by rw [hcat]; exact hpair)
      (by rw [hcat]; exact hwin)
    simp only [RL.runList]
    rw [hstep]
    simp only
    rw [ih', hcat, List.length_cons, List.replicate_succ]

/-- **C7.** The sliding-window limiter with `MAX = N` and `WINDOW = W`,
started empty: `N` calls at nondecreasing times inside one window all
return `allowed` and record their timestamps; an `(N+1)`-th call still
inside the window of the oldest recorded call returns `allowed = false`
with a wait (the spec's `retryAfter`) computed from that oldest timestamp
and strictly positive; and once at least `W` has elapsed since the oldest
call, a further call is allowed again. -/
theorem rate_limiter_window (N W : Nat) (_hN : 1 ≤ N) (_hW : 1 ≤ W)
    (t1 : Nat) (rest : List Nat) (tNext tRetry : Nat)
    (hpair : (t1 :: rest).Pairwise (· ≤ ·))
    (hlen : (t1 :: rest).length = N)
    (hle : ∀ t ∈ t1 :: rest, t ≤ tNext)
    (hwin : tNext - t1 < W)
    (_hr1 : tNext ≤ tRetry) (hr2 : t1 + W ≤ tRetry) :
    ((RL.runList ⟨[], N, W⟩ (t1 :: rest)).2 = List.replicate N .allowed) ∧
    ((RL.runList ⟨[], N, W⟩ (t1 :: rest)).1.timestamps = t1 :: rest) ∧
    (((RL.runList ⟨[], N, W⟩ (t1 :: rest)).1.check tNext).2
       = .blocked ((W - (tNext - t1) + 999) / 1000)) ∧
    (1 ≤ (W - (tNext - t1) + 999) / 1000) ∧
    ((((RL.runList ⟨[], N, W⟩ (t1 :: rest)).1.check tNext).1.check tRetry).2
       = .allowed) := by
  have h0 : ∀ t ∈ t1 :: rest, t1 ≤ t := by
    intro t ht
    rcases List.mem_cons.mp ht with h | h
    · omega
    · exact (List.pairwise_cons.mp hpair).1 t h
  have hwin' : ∀ a ∈ t1 :: rest, ∀ b ∈ t1 :: rest, b - a < W := by
    intro a ha b hb
    have h1 := h0 a ha
    have h2 := hle b hb
    omega
  have hrun : RL.runList ⟨[], N, W⟩ (t1 :: rest)
      = (⟨t1 :: rest, N, W⟩, List.replicate (t1 :: rest).length .allowed) := by
    have := runList_window W N [] (t1 :: rest) (by simpa using hlen.le)
      (by simpa using hpair) (by simpa using hwin')
    simpa using this
  have hkeepall : ∀ t ∈ t1 :: rest, tNext - t < W := by
    intro t ht
    have h1 := h0 t ht
    omega
  have hfilall : (t1 :: rest).filter (fun t => decide (tNext - t < W)) = t1 :: rest :=
    List.filter_eq_self.mpr (fun t ht => decide_eq_true (hkeepall t ht))
  have hblock : RL.check ⟨t1 :: rest, N, W⟩ tNext
      = (⟨t1 :: rest, N, W⟩, .blocked ((W - (tNext - t1) + 999) / 1000)) := by
    simp only [RL.check]
    rw [hfilall, if_pos (by omega)]
  have hretry : (RL.check ⟨t1 :: rest, N, W⟩ tRetry).2 = .allowed := by
    simp only [RL.check]
    have hdrop : (decide (tRetry - t1 < W)) = false := by
      simp only [decide_eq_false_iff_not]
      omega
    rw [List.filter_cons_of_neg (by simp [hdrop])]
    have hlt : (rest.filter (fun t => decide (tRetry - t < W))).length < N := by
      have := List.length_filter_le (fun t => decide (tRetry - t < W)) rest
      simp only [List.length_cons] at hlen
      omega
    rw [if_neg (by omega)]
  refine ⟨?_, ?_, ?_, by omega, ?_⟩
  · rw [hrun, hlen]
  · rw [hrun]
  · rw [hrun]
    exact congrArg Prod.snd hblock
  · rw [hrun]
    show ((RL.check ⟨t1 :: rest, N, W⟩ tNext).1.check tRetry).2 = .allowed
    rw [hblock]
    exact hretry

/-- Witness for C7: with `MAX = 2`, `WINDOW = 30000`, calls at 100 and 200
are allowed, a third call at 300 is blocked with a 30-second wait, and a
call at 30100 (≥ 100 + 30000) is allowed again. -/
theorem rate_limiter_window_witness :
    ((RL.runList ⟨[], 2, 30000⟩ [100, 200]).2 = List.replicate 2 .allowed) ∧
    ((RL.runList ⟨[], 2, 30000⟩ [100, 200]).1.timestamps = [100, 200]) ∧
    (((RL.runList ⟨[], 2, 30000⟩ [100, 200]).1.check 300).2
       = .blocked ((30000 - (300 - 100) + 999) / 1000)) ∧
    (1 ≤ (30000 - (300 - 100) + 999) / 1000) ∧
    ((((RL.runList ⟨[], 2, 30000⟩ [100, 200]).1.check 300).1.check 30100).2
       = .allowed) :=
  rate_limiter_window 2 30000 (by decide) (by decide) 100 [200] 300 30100
    (by decide) (by decide) (by decide) (by decide) (by decide) (by decide)

end TrustLayer
